import Mathlib

/-!
Shallow embedding of the OAuth2 client (`OAuth2Client` class of the
repository's oauth client source file).  JavaScript strings are modelled as
`String` (or `List Char` where character-level reasoning is needed), machine
numbers as `Nat`/`Int`, `null`-able values as `Option`, and thrown
exceptions as an explicit error result.  The browser state the class touches
(the two fields of the instance, `localStorage`, `sessionStorage`) is
gathered into one `World` record; every method becomes a function from its
inputs and the current `World` to a result and the next `World`.
External platform primitives (the random byte source, the SHA-256 digest,
`atob`+`JSON.parse` of the payload, `Date.toISOString`) are inputs or
function parameters of the corresponding operations.
-/

/-- JavaScript truthiness of a `string | null` value: `null` and the empty
string are falsy, every other string is truthy. -/
def truthy : Option String → Bool
  | none => false
  | some s => s != ""

/-- The mutable state the client can observe and change: the two in-memory
fields of the `OAuth2Client` instance, the three `localStorage` keys
(prefixed `ls_`) and the two `sessionStorage` keys (prefixed `ss_`). -/
structure World where
  accessToken : Option String
  refreshToken : Option String
  ls_access_token : Option String
  ls_refresh_token : Option String
  ls_token_expires_at : Option String
  ss_oauth_state : Option String
  ss_oauth_code_verifier : Option String
deriving DecidableEq

/-- The errors the client throws, one constructor per `throw` site, named
after the spec's error taxonomy.  The message strings of the source are:
`authorizationDenied e` ↦ "OAuth error: <e>", `malformedCallback` ↦
"Missing authorization code or state parameter", `stateMismatch` ↦
"Invalid state parameter", `missingVerifier` ↦ "Missing code verifier",
`tokenExchangeFailed st b` ↦ "Token exchange failed: <st> - <b>";
`jsonParseError` models a `response.json()` rejection propagating through
the rethrowing catch block. -/
inductive OAuthError where
  | authorizationDenied (error : String)
  | malformedCallback
  | stateMismatch
  | missingVerifier
  | tokenExchangeFailed (status : Nat) (body : String)
  | jsonParseError
deriving DecidableEq

/-- The `TokenResponse` interface of the source: JSON body of a successful
token-endpoint response.  Optional fields are `Option`. -/
structure TokenResponse where
  access_token : String
  token_type : String
  expires_in : Option Int
  refresh_token : Option String
  scope : Option String
deriving DecidableEq

/-- A token-endpoint HTTP response as the `fetch` call surfaces it:
status code, body text (read on the error path) and the result of parsing
the body as JSON (`none` when the body is not a valid `TokenResponse`). -/
structure HttpResponse where
  status : Nat
  bodyText : String
  json : Option TokenResponse
deriving DecidableEq

/-- The `Response.ok` accessor of `fetch`: status in the range 200-299. -/
def HttpResponse.ok (r : HttpResponse) : Bool :=
  200 ≤ r.status && r.status ≤ 299

/-- The `logout()` method restricted to its token-state effect: clears the
two in-memory fields and removes the three `localStorage` entries.  (The
source additionally rewrites the URL when on the `/callback` path, which
touches no token state.) -/
def logout (w : World) : World :=
  { w with
    accessToken := none
    refreshToken := none
    ls_access_token := none
    ls_refresh_token := none
    ls_token_expires_at := none }

/-- The `saveTokensToStorage(tokenResponse)` method: unconditionally writes
`access_token`, writes `refresh_token` only when that field is truthy, and
writes `token_expires_at` as `(Date.now() + expires_in * 1000).toString()`
only when `expires_in` is truthy (present and nonzero).  `now` is the
`Date.now()` value at the moment of the call. -/
def saveTokensToStorage (tr : TokenResponse) (now : Int) (w : World) : World :=
  let w1 := { w with ls_access_token := some tr.access_token }
  let w2 := if truthy tr.refresh_token
    then { w1 with ls_refresh_token := tr.refresh_token }
    else w1
  match tr.expires_in with
  | some n =>
      if n ≠ 0 then { w2 with ls_token_expires_at := some (toString (now + n * 1000)) }
      else w2
  | none => w2

/-- The `exchangeCodeForToken(code, codeVerifier)` method.  The network is
external: the response the token endpoint returns is an input `resp`, and
`now` is `Date.now()` at response receipt.  On a non-ok status it throws
`tokenExchangeFailed` with the status and body text; on success it sets the
in-memory fields (`refreshToken` is `tokenResponse.refresh_token || null`),
persists via `saveTokensToStorage`, and returns `true`.  The catch block of
the source only logs and rethrows, so it changes no state. -/
def exchangeCodeForToken (code codeVerifier : String) (resp : HttpResponse)
    (now : Int) (w : World) : Except OAuthError Bool × World :=
  if resp.ok then
    match resp.json with
    | some tr =>
        let w1 := { w with
          accessToken := some tr.access_token
          refreshToken := if truthy tr.refresh_token then tr.refresh_token else none }
        (Except.ok true, saveTokensToStorage tr now w1)
    | none => (Except.error OAuthError.jsonParseError, w)
  else
    (Except.error (OAuthError.tokenExchangeFailed resp.status resp.bodyText), w)

/-- The three query parameters `handleCallback()` reads from
`window.location.search`; `URLSearchParams.get` returns `null` for an
absent parameter, hence `Option String`. -/
structure CallbackQuery where
  code : Option String
  state : Option String
  error : Option String
deriving DecidableEq

/-- The `handleCallback()` method.  Gate order as in the source: truthy
`error` parameter; falsy `code` or `state`; received `state` not strictly
equal (`!==`) to the stored `oauth_state` (`null` compares unequal to any
string); falsy stored `oauth_code_verifier`.  Only after all gates pass are
the two session entries removed and the token exchange invoked. -/
def handleCallback (q : CallbackQuery) (resp : HttpResponse) (now : Int)
    (w : World) : Except OAuthError Bool × World :=
  if truthy q.error then
    (Except.error (OAuthError.authorizationDenied (q.error.getD "")), w)
  else if !truthy q.code || !truthy q.state then
    (Except.error OAuthError.malformedCallback, w)
  else if q.state ≠ w.ss_oauth_state then
    (Except.error OAuthError.stateMismatch, w)
  else if !truthy w.ss_oauth_code_verifier then
    (Except.error OAuthError.missingVerifier, w)
  else
    let w1 := { w with ss_oauth_state := none, ss_oauth_code_verifier := none }
    exchangeCodeForToken (q.code.getD "") (w.ss_oauth_code_verifier.getD "") resp now w1

/-- Digit-sequence value in base 10, used by the `parseInt` model. -/
def digitsVal (l : List Char) : Nat :=
  l.foldl (fun a c => a * 10 + (c.toNat - 48)) 0

/-- Model of JavaScript `parseInt` on the base-10 inputs this program
feeds it: optional sign, then the longest leading run of decimal digits;
`none` models the `NaN` result when no digit is found.  (The source only
ever stores `Number.toString()` output under `token_expires_at`, which this
covers exactly.) -/
def jsParseInt (s : String) : Option Int :=
  match s.data with
  | '-' :: rest =>
      let ds := rest.takeWhile Char.isDigit
      if ds = [] then none else some (-(digitsVal ds : Int))
  | '+' :: rest =>
      let ds := rest.takeWhile Char.isDigit
      if ds = [] then none else some ((digitsVal ds : Int))
  | l =>
      let ds := l.takeWhile Char.isDigit
      if ds = [] then none else some ((digitsVal ds : Int))

/-- The `loadTokensFromStorage()` method: copies the two `localStorage`
token entries into memory, then, when `token_expires_at` is truthy and
`Date.now() > parseInt(expiresAt)` (false when `parseInt` yields `NaN`),
calls `logout()`. -/
def loadTokensFromStorage (now : Int) (w : World) : World :=
  let w1 := { w with
    accessToken := w.ls_access_token
    refreshToken := w.ls_refresh_token }
  let expired :=
    match w1.ls_token_expires_at with
    | none => false
    | some s =>
        (s != "") && (match jsParseInt s with
          | none => false
          | some n => now > n)
  if expired then logout w1 else w1

/-- The `OAuth2Client` constructor: fields initialised to `null`, then
`loadTokensFromStorage()`; `storage` is the surrounding browser storage at
construction time and `now` the clock value. -/
def mkOAuth2Client (now : Int) (storage : World) : World :=
  loadTokensFromStorage now { storage with accessToken := none, refreshToken := none }

/-- The `getAccessToken()` method. -/
def getAccessToken (w : World) : Option String :=
  w.accessToken

/-- The `isAuthenticated()` method: `this.accessToken !== null` (a strict
null check, so an empty-string token still counts as authenticated). -/
def isAuthenticated (w : World) : Bool :=
  w.accessToken.isSome

/-- Claims object obtained by decoding the JWT payload segment:
the fields `getTokenInfo()` reads off the parsed JSON, absent ones `none`. -/
structure Claims where
  exp : Option Int
  scope : Option String
  sub : Option String
  username : Option String
deriving DecidableEq

/-- The two shapes of object `getTokenInfo()` can return: the full decoded
descriptor, or the degraded `{ token: <prefix>..., type: 'Bearer' }` one
built in the catch block. -/
inductive TokenInfo where
  | full (token expires scope user : String)
  | basic (token type : String)
deriving DecidableEq

/-- JavaScript `String.prototype.split` with separator `'.'`, on the
character list of the string. -/
def splitOnDot : List Char → List (List Char)
  | [] => [[]]
  | c :: rest =>
      match splitOnDot rest with
      | [] => [[]]
      | seg :: segs => if c = '.' then [] :: seg :: segs else (c :: seg) :: segs

/-- One global single-character replacement pass, the shape of the chained
`.replace(/x/g, y)` calls of the source. -/
def replaceChar (a b : Char) (l : List Char) : List Char :=
  l.map fun c => if c = a then b else c

/-- The JavaScript `a || b` fallback on a possibly-absent string: `b` when
`a` is `null`/`undefined` or empty. -/
def strOr (a : Option String) (b : String) : String :=
  match a with
  | some s => if s ≠ "" then s else b
  | none => b

/-- The `getTokenInfo()` method.  `decodePayload` stands for the platform
composition `JSON.parse(atob(·))` applied to the un-base64url-ed payload
segment (an `Except` since either builtin can throw), and `dateIso` for
`new Date(·).toISOString()`.  A falsy held token returns `null`; an
`undefined` or empty second dot-segment skips the `if (payload)` body and
falls through to the trailing `return null`; a decode failure lands in the
catch block, which returns the degraded descriptor.  The overall result is
an `Except` to record that no error ever escapes to the caller. -/
def getTokenInfo (decodePayload : List Char → Except Unit Claims)
    (dateIso : Int → String) (w : World) : Except Unit (Option TokenInfo) :=
  if !truthy w.accessToken then Except.ok none
  else
    let tok := (w.accessToken.getD "").data
    match (splitOnDot tok)[1]? with
    | none => Except.ok none
    | some payload =>
      if payload = [] then Except.ok none
      else
        match decodePayload (replaceChar '_' '/' (replaceChar '-' '+' payload)) with
        | Except.error _ =>
            Except.ok (some (TokenInfo.basic (String.mk (tok.take 20) ++ "...") "Bearer"))
        | Except.ok decoded =>
            Except.ok (some (TokenInfo.full
              (String.mk (tok.take 20) ++ "...")
              (match decoded.exp with
                | some e => if e ≠ 0 then dateIso (e * 1000) else "Unknown"
                | none => "Unknown")
              (strOr decoded.scope "Unknown")
              (strOr decoded.sub (strOr decoded.username "Unknown"))))

/-- The base64 alphabet `btoa` draws from, indexed 0-63. -/
def b64Alphabet : List Char :=
  "ABCDEFGHIJKLMNOPQRSTUVWXYZabcdefghijklmnopqrstuvwxyz0123456789+/".data

/-- Character of the base64 alphabet at a 6-bit index. -/
def b64Char (n : Nat) : Char := b64Alphabet.getD n '?'

/-- The composite `btoa(String.fromCharCode(...bytes))` of the source:
standard base64 of a byte sequence, with `=` padding. -/
def btoaBytes : List Nat → List Char
  | [] => []
  | [b1] => [b64Char (b1 / 4), b64Char (b1 % 4 * 16), '=', '=']
  | [b1, b2] => [b64Char (b1 / 4), b64Char (b1 % 4 * 16 + b2 / 16), b64Char (b2 % 16 * 4), '=']
  | b1 :: b2 :: b3 :: rest =>
      b64Char (b1 / 4) :: b64Char (b1 % 4 * 16 + b2 / 16) ::
        b64Char (b2 % 16 * 4 + b3 / 64) :: b64Char (b3 % 64) :: btoaBytes rest

/-- Removal of every occurrence of a character, the shape of the final
`.replace(/=/g, '')` call. -/
def removeChar (a : Char) (l : List Char) : List Char :=
  l.filter fun c => c != a

/-- The `generateCodeChallenge(codeVerifier)` method after the platform
digest: the SHA-256 digest bytes (computed externally by
`crypto.subtle.digest` on the verifier's UTF-8 bytes) are base64-ed by
`btoa` and then rewritten by the three chained `replace` calls
(`+`→`-`, `/`→`_`, `=`→ removed). -/
def generateCodeChallenge (digest : List Nat) : List Char :=
  removeChar '=' (replaceChar '/' '_' (replaceChar '+' '-' (btoaBytes digest)))

/-- The base64url alphabet (RFC 4648 §5), indexed 0-63. -/
def b64urlAlphabet : List Char :=
  "ABCDEFGHIJKLMNOPQRSTUVWXYZabcdefghijklmnopqrstuvwxyz0123456789-_".data

/-- Character of the base64url alphabet at a 6-bit index. -/
def b64urlChar (n : Nat) : Char := b64urlAlphabet.getD n '?'

/-- Modelled from the spec: base64url encoding of a byte sequence, written
independently of `btoaBytes` — directly over the URL-safe alphabet and
producing no padding — to compare the code's composition against. -/
def base64urlEncode : List Nat → List Char
  | [] => []
  | [b1] => [b64urlChar (b1 / 4), b64urlChar (b1 % 4 * 16)]
  | [b1, b2] => [b64urlChar (b1 / 4), b64urlChar (b1 % 4 * 16 + b2 / 16), b64urlChar (b2 % 16 * 4)]
  | b1 :: b2 :: b3 :: rest =>
      b64urlChar (b1 / 4) :: b64urlChar (b1 % 4 * 16 + b2 / 16) ::
        b64urlChar (b2 % 16 * 4 + b3 / 64) :: b64urlChar (b3 % 64) :: base64urlEncode rest

/-- The hex alphabet `Number.toString(16)` draws its digits from. -/
def hexAlphabet : List Char := "0123456789abcdef".data

/-- One byte of the random array as `generateRandomString` renders it:
`byte.toString(16).padStart(2, '_')` — lowercase hex without leading
zeros, left-padded to width 2 with underscores (not zeros). -/
def byteHexPadded (b : Nat) : List Char :=
  let s := Nat.toDigits 16 b
  List.replicate (2 - s.length) '_' ++ s

/-- The `generateRandomString(length)` method.  The platform randomness is
an input: `bytes` is the content `crypto.getRandomValues` put into the
`Uint8Array(length)` (so `bytes.length = length` and each entry is below
256).  Each byte is rendered by `byteHexPadded`, the pieces are joined and
the result sliced to `length` characters. -/
def generateRandomString (length : Nat) (bytes : List Nat) : List Char :=
  ((bytes.map byteHexPadded).flatten).take length

/-! ## Helper lemmas -/

/-- An empty string parses to `NaN` (modelled as `none`). -/
theorem jsParseInt_empty : jsParseInt "" = none := rfl

/-- A string that `jsParseInt` accepts is nonempty. -/
theorem jsParseInt_ne_empty {s : String} {e : Int} (h : jsParseInt s = some e) : s ≠ "" := by
  intro hs
  rw [hs, jsParseInt_empty] at h
  exact Option.noConfusion h

/-! ## C5: logout clears everything -/

/-- C5: for every prior state, after `logout()` the client is
unauthenticated, `getAccessToken()` is `null`, the in-memory refresh token
is `null`, and the three durable entries `access_token`, `refresh_token`
and `token_expires_at` are all removed. -/
theorem logout_spec (w : World) :
    isAuthenticated (logout w) = false ∧
    getAccessToken (logout w) = none ∧
    (logout w).refreshToken = none ∧
    (logout w).ls_access_token = none ∧
    (logout w).ls_refresh_token = none ∧
    (logout w).ls_token_expires_at = none :=
  ⟨rfl, rfl, rfl, rfl, rfl, rfl⟩

/-! ## C3: failed exchange installs nothing -/

/-- C3: on a non-success HTTP status, `exchangeCodeForToken` fails with a
`TokenExchangeFailed` error carrying the status and body and leaves the
whole world — in-memory tokens and all three durable entries, hence also
`getAccessToken()` — exactly as it was. -/
theorem exchangeCodeForToken_httpError (code codeVerifier : String) (resp : HttpResponse)
    (now : Int) (w : World) (h : ¬ (200 ≤ resp.status ∧ resp.status ≤ 299)) :
    exchangeCodeForToken code codeVerifier resp now w =
      (Except.error (OAuthError.tokenExchangeFailed resp.status resp.bodyText), w) := by
  have hok : resp.ok = false := by
    rw [HttpResponse.ok]
    rcases Nat.lt_or_ge resp.status 200 with hlt | hge
    · simp [Nat.not_le_of_lt hlt]
    · have : ¬ resp.status ≤ 299 := fun hle => h ⟨hge, hle⟩
      simp [this]
  simp [exchangeCodeForToken, hok]

/-- Witness for C3 at a concrete 400 response and a world already holding
a valid session. -/
theorem exchangeCodeForToken_httpError_witness :
    ¬ ((200 : Nat) ≤ 400 ∧ (400 : Nat) ≤ 299) ∧
    exchangeCodeForToken "c" "v" ⟨400, "bad_request", none⟩ 0
        ⟨some "old", some "r", some "old", some "r", some "99", none, none⟩ =
      (Except.error (OAuthError.tokenExchangeFailed 400 "bad_request"),
        ⟨some "old", some "r", some "old", some "r", some "99", none, none⟩) :=
  ⟨by decide, exchangeCodeForToken_httpError "c" "v" ⟨400, "bad_request", none⟩ 0 _ (by decide)⟩

/-! ## C1: state mismatch is a hard gate -/

/-- C1: in a callback that reaches the state gate (no truthy `error`
parameter, truthy `code`, a received nonempty `state` value), whenever the
stored `oauth_state` is absent or not exactly equal to the received value,
`handleCallback()` fails with `StateMismatch` and the world is returned
untouched: no in-memory or durable token entry changes.  Because the
right-hand side does not mention `resp`, the result is the same for every
possible token-endpoint response — no token exchange is attempted. -/
theorem handleCallback_stateMismatch (q : CallbackQuery) (resp : HttpResponse)
    (now : Int) (w : World) (s : String) (herr : truthy q.error = false)
    (hcode : truthy q.code = true) (hstate : q.state = some s) (hs : s ≠ "")
    (hmm : w.ss_oauth_state ≠ some s) :
    handleCallback q resp now w = (Except.error OAuthError.stateMismatch, w) := by
  have hst : truthy q.state = true := by
    rw [hstate]
    simp [truthy, bne_iff_ne, hs]
  have hne : q.state ≠ w.ss_oauth_state := by
    rw [hstate]
    exact fun h => hmm h.symm
  simp [handleCallback, herr, hcode, hst, hne]

/-- Witness for C1: received state "s" against stored state "x". -/
theorem handleCallback_stateMismatch_witness :
    truthy (none : Option String) = false ∧ truthy (some "c") = true ∧
    ("s" : String) ≠ "" ∧ (some "x" : Option String) ≠ some "s" ∧
    handleCallback ⟨some "c", some "s", none⟩ ⟨200, "", none⟩ 0
        ⟨none, none, none, none, none, some "x", some "v"⟩ =
      (Except.error OAuthError.stateMismatch,
        ⟨none, none, none, none, none, some "x", some "v"⟩) :=
  ⟨rfl, by decide, by decide, by decide,
    handleCallback_stateMismatch _ _ 0 _ "s" rfl (by decide) rfl (by decide) (by decide)⟩

/-! ## C8: the error parameter gate -/

/-- C8 counterexample: a callback whose query carries the `error`
parameter with an empty value (`?error=&code=c&state=s`).  The parameter is
present, yet `handleCallback()` does not fail with `AuthorizationDenied`:
the falsy-string check skips the error gate, the exchange is performed and
a token is installed — refuting the claim as stated for this input. -/
theorem handleCallback_empty_error_counterexample :
    handleCallback ⟨some "c", some "s", some ""⟩
        ⟨200, "", some ⟨"t", "Bearer", none, none, none⟩⟩ 0
        ⟨none, none, none, none, none, some "s", some "v"⟩ =
      (Except.ok true, ⟨some "t", none, some "t", none, none, none, none⟩) := rfl

/-- C8 amended: for every callback query whose `error` parameter is
present with a nonempty value, `handleCallback()` fails with
`AuthorizationDenied` carrying that value and returns the world untouched;
the right-hand side mentions neither `resp` nor any other query parameter,
so no token exchange is attempted and the check precedes all others. -/
theorem handleCallback_authorizationDenied (q : CallbackQuery) (resp : HttpResponse)
    (now : Int) (w : World) (e : String) (he : q.error = some e) (hne : e ≠ "") :
    handleCallback q resp now w = (Except.error (OAuthError.authorizationDenied e), w) := by
  have ht : truthy (some e) = true := by
    simp [truthy, bne_iff_ne, hne]
  simp [handleCallback, he, ht]

/-- Witness for the amended C8 at `error=access_denied`. -/
theorem handleCallback_authorizationDenied_witness :
    (some "access_denied" : Option String) = some "access_denied" ∧
    ("access_denied" : String) ≠ "" ∧
    handleCallback ⟨some "c", some "s", some "access_denied"⟩ ⟨200, "", none⟩ 0
        ⟨none, none, none, none, none, some "s", some "v"⟩ =
      (Except.error (OAuthError.authorizationDenied "access_denied"),
        ⟨none, none, none, none, none, some "s", some "v"⟩) :=
  ⟨rfl, by decide,
    handleCallback_authorizationDenied _ _ 0 _ "access_denied" rfl (by decide)⟩

/-! ## C6: successful exchange installs the token -/

/-- C6 counterexample: a successful (HTTP 200) response carrying
`access_token = "abc"` and `expires_in = 0`.  JavaScript truthiness makes
`if (tokenResponse.expires_in)` skip the write, so the durable
`token_expires_at` entry stays absent instead of being set to the string
form of `now + 0 * 1000` — refuting the claim as stated for this input. -/
theorem exchange_zero_expires_in_counterexample :
    (exchangeCodeForToken "c" "v" ⟨200, "", some ⟨"abc", "Bearer", some 0, none, none⟩⟩ 1000
        ⟨none, none, none, none, none, none, none⟩).2.ls_token_expires_at = none ∧
    (none : Option String) ≠ some (toString ((1000 : Int) + 0 * 1000)) :=
  ⟨rfl, by simp⟩

/-- C6 amended: for every successful (HTTP 2xx) response whose JSON body
carries `access_token` and a nonzero `expires_in` value `s`, after
`exchangeCodeForToken` the call reports success, `isAuthenticated()` is
true, `getAccessToken()` and the durable `access_token` entry equal the
returned token, and the durable `token_expires_at` entry is the string form
of `now + s * 1000` milliseconds, `now` being the clock at response
receipt.  (The claim as stated fails only at `s = 0`, where the truthiness
guard skips the expiry write.) -/
theorem exchangeCodeForToken_success_installs (code codeVerifier : String)
    (resp : HttpResponse) (now : Int) (w : World) (tr : TokenResponse) (s : Int)
    (hst : 200 ≤ resp.status ∧ resp.status ≤ 299) (hjson : resp.json = some tr)
    (hexp : tr.expires_in = some s) (hs : s ≠ 0) :
    (exchangeCodeForToken code codeVerifier resp now w).1 = Except.ok true ∧
    isAuthenticated (exchangeCodeForToken code codeVerifier resp now w).2 = true ∧
    getAccessToken (exchangeCodeForToken code codeVerifier resp now w).2 =
      some tr.access_token ∧
    (exchangeCodeForToken code codeVerifier resp now w).2.ls_access_token =
      some tr.access_token ∧
    (exchangeCodeForToken code codeVerifier resp now w).2.ls_token_expires_at =
      some (toString (now + s * 1000)) := by
  have hok : resp.ok = true := by
    rw [HttpResponse.ok]
    simp [hst.1, hst.2]
  by_cases hr : truthy tr.refresh_token <;>
    simp [exchangeCodeForToken, hok, hjson, saveTokensToStorage, hexp, hs, hr,
      isAuthenticated, getAccessToken]

/-- Witness for the amended C6: `{access_token: "abc", expires_in: 3600}`
received at clock value 5. -/
theorem exchangeCodeForToken_success_installs_witness :
    ((200 : Nat) ≤ 200 ∧ (200 : Nat) ≤ 299) ∧ ((3600 : Int) ≠ 0) ∧
    ((exchangeCodeForToken "c" "v" ⟨200, "", some ⟨"abc", "Bearer", some 3600, none, none⟩⟩ 5
        ⟨none, none, none, none, none, none, none⟩).1 = Except.ok true ∧
      isAuthenticated (exchangeCodeForToken "c" "v"
        ⟨200, "", some ⟨"abc", "Bearer", some 3600, none, none⟩⟩ 5
        ⟨none, none, none, none, none, none, none⟩).2 = true ∧
      getAccessToken (exchangeCodeForToken "c" "v"
        ⟨200, "", some ⟨"abc", "Bearer", some 3600, none, none⟩⟩ 5
        ⟨none, none, none, none, none, none, none⟩).2 = some "abc" ∧
      (exchangeCodeForToken "c" "v"
        ⟨200, "", some ⟨"abc", "Bearer", some 3600, none, none⟩⟩ 5
        ⟨none, none, none, none, none, none, none⟩).2.ls_access_token = some "abc" ∧
      (exchangeCodeForToken "c" "v"
        ⟨200, "", some ⟨"abc", "Bearer", some 3600, none, none⟩⟩ 5
        ⟨none, none, none, none, none, none, none⟩).2.ls_token_expires_at =
        some (toString ((5 : Int) + 3600 * 1000))) :=
  ⟨⟨by decide, by decide⟩, by decide,
    exchangeCodeForToken_success_installs "c" "v" _ 5 _ _ 3600
      ⟨by decide, by decide⟩ rfl rfl (by decide)⟩

/-! ## C10: omitted response fields leave stale durable entries -/

/-- C10: on a successful exchange, when the response omits
`refresh_token`, the in-memory refresh token is reset to `null` but the
durable `refresh_token` entry of any earlier session is neither removed nor
overwritten; likewise an omitted `expires_in` leaves the durable
`token_expires_at` entry untouched — stale values survive the new login. -/
theorem exchange_frame_effects (code codeVerifier : String) (resp : HttpResponse)
    (now : Int) (w : World) (tr : TokenResponse)
    (hst : 200 ≤ resp.status ∧ resp.status ≤ 299) (hjson : resp.json = some tr) :
    (tr.refresh_token = none →
      (exchangeCodeForToken code codeVerifier resp now w).2.refreshToken = none ∧
      (exchangeCodeForToken code codeVerifier resp now w).2.ls_refresh_token =
        w.ls_refresh_token) ∧
    (tr.expires_in = none →
      (exchangeCodeForToken code codeVerifier resp now w).2.ls_token_expires_at =
        w.ls_token_expires_at) := by
  have hok : resp.ok = true := by
    rw [HttpResponse.ok]
    simp [hst.1, hst.2]
  constructor
  · intro hr
    have htr : truthy tr.refresh_token = false := by rw [hr]; rfl
    rcases hexp : tr.expires_in with _ | n
    · simp [exchangeCodeForToken, hok, hjson, saveTokensToStorage, hexp, htr]
    · by_cases hn : n = 0 <;>
        simp [exchangeCodeForToken, hok, hjson, saveTokensToStorage, hexp, htr, hn]
  · intro hexp
    by_cases hr : truthy tr.refresh_token <;>
      simp [exchangeCodeForToken, hok, hjson, saveTokensToStorage, hexp, hr]

/-- Witness for C10: a response with both optional fields omitted, against
a world still holding a stale refresh token and a stale expiry. -/
theorem exchange_frame_effects_witness :
    ((200 : Nat) ≤ 200 ∧ (200 : Nat) ≤ 299) ∧
    ((exchangeCodeForToken "c" "v" ⟨200, "", some ⟨"t", "Bearer", none, none, none⟩⟩ 0
        ⟨none, none, none, some "staleR", some "staleE", none, none⟩).2.refreshToken = none ∧
      (exchangeCodeForToken "c" "v" ⟨200, "", some ⟨"t", "Bearer", none, none, none⟩⟩ 0
        ⟨none, none, none, some "staleR", some "staleE", none, none⟩).2.ls_refresh_token =
        (⟨none, none, none, some "staleR", some "staleE", none, none⟩ : World).ls_refresh_token) ∧
    (exchangeCodeForToken "c" "v" ⟨200, "", some ⟨"t", "Bearer", none, none, none⟩⟩ 0
        ⟨none, none, none, some "staleR", some "staleE", none, none⟩).2.ls_token_expires_at =
      (⟨none, none, none, some "staleR", some "staleE", none, none⟩ : World).ls_token_expires_at :=
  ⟨⟨by decide, by decide⟩,
    (exchange_frame_effects "c" "v" _ 0 _ _ ⟨by decide, by decide⟩ rfl).1 rfl,
    (exchange_frame_effects "c" "v" _ 0 _ _ ⟨by decide, by decide⟩ rfl).2 rfl⟩

/-! ## C4: initial state from durable storage -/

/-- C4: at construction, if durable storage holds an access token and
either no `token_expires_at` entry or one whose recorded instant (the
value `parseInt` reads off it) is still in the future, the client comes up
authenticated with that token — and the durable refresh token, if any —
loaded into memory; and whenever the recorded expiry instant is in the
past, the client comes up unauthenticated and all three durable entries
are removed. -/
theorem mkOAuth2Client_spec (now : Int) (w : World) :
    (∀ t, w.ls_access_token = some t →
      (w.ls_token_expires_at = none ∨
        ∃ s e, w.ls_token_expires_at = some s ∧ jsParseInt s = some e ∧ now < e) →
      isAuthenticated (mkOAuth2Client now w) = true ∧
      getAccessToken (mkOAuth2Client now w) = some t ∧
      (mkOAuth2Client now w).refreshToken = w.ls_refresh_token) ∧
    (∀ s e, w.ls_token_expires_at = some s → jsParseInt s = some e → e < now →
      isAuthenticated (mkOAuth2Client now w) = false ∧
      (mkOAuth2Client now w).ls_access_token = none ∧
      (mkOAuth2Client now w).ls_refresh_token = none ∧
      (mkOAuth2Client now w).ls_token_expires_at = none) := by
  constructor
  · intro t ht hfresh
    rcases hfresh with hnone | ⟨s, e, hs, hp, hlt⟩
    · simp [mkOAuth2Client, loadTokensFromStorage, hnone, isAuthenticated,
        getAccessToken, ht]
    · have hnotgt : ¬ now > e := Int.not_lt.mpr (Int.le_of_lt hlt)
      simp [mkOAuth2Client, loadTokensFromStorage, hs, hp, hnotgt, isAuthenticated,
        getAccessToken, ht]
  · intro s e hs hp hlt
    have hne : s ≠ "" := jsParseInt_ne_empty hp
    have hgt : now > e := hlt
    simp [mkOAuth2Client, loadTokensFromStorage, hs, hp, bne_iff_ne, hne, hgt,
      logout, isAuthenticated]

/-- Witness for C4: one world with a future expiry (clock 50, expiry 99)
and one with a past expiry (clock 50, expiry 10). -/
theorem mkOAuth2Client_spec_witness :
    ((⟨none, none, some "tok", some "r", some "99", none, none⟩ : World).ls_access_token =
        some "tok" ∧
      jsParseInt "99" = some 99 ∧ (50 : Int) < 99 ∧
      isAuthenticated (mkOAuth2Client 50
        ⟨none, none, some "tok", some "r", some "99", none, none⟩) = true ∧
      getAccessToken (mkOAuth2Client 50
        ⟨none, none, some "tok", some "r", some "99", none, none⟩) = some "tok" ∧
      (mkOAuth2Client 50
        ⟨none, none, some "tok", some "r", some "99", none, none⟩).refreshToken = some "r") ∧
    (jsParseInt "10" = some 10 ∧ (10 : Int) < 50 ∧
      isAuthenticated (mkOAuth2Client 50
        ⟨none, none, some "tok", some "r", some "10", none, none⟩) = false ∧
      (mkOAuth2Client 50
        ⟨none, none, some "tok", some "r", some "10", none, none⟩).ls_access_token = none ∧
      (mkOAuth2Client 50
        ⟨none, none, some "tok", some "r", some "10", none, none⟩).ls_refresh_token = none ∧
      (mkOAuth2Client 50
        ⟨none, none, some "tok", some "r", some "10", none, none⟩).ls_token_expires_at = none) := by
  constructor
  · refine ⟨rfl, by decide, by decide, ?_⟩
    exact (mkOAuth2Client_spec 50 _).1 "tok" rfl
      (Or.inr ⟨"99", 99, rfl, by decide, by decide⟩)
  · refine ⟨by decide, by decide, ?_⟩
    exact (mkOAuth2Client_spec 50 _).2 "10" 10 rfl (by decide) (by decide)

/-! ## C2: the verifier and state alphabet -/

set_option maxRecDepth 4096 in
/-- Every byte below 256 renders to exactly two characters. -/
theorem byteHexPadded_length : ∀ b < 256, (byteHexPadded b).length = 2 := by decide

set_option maxRecDepth 4096 in
/-- Every character a byte below 256 renders to is a hex digit or the
underscore pad character. -/
theorem byteHexPadded_mem : ∀ b < 256, ∀ c ∈ byteHexPadded b, c ∈ '_' :: hexAlphabet := by
  decide

/-- Joining the two-character renderings of `n` bytes yields `2 * n`
characters. -/
theorem byteHexPadded_flatten_length (bytes : List Nat) (hb : ∀ b ∈ bytes, b < 256) :
    ((bytes.map byteHexPadded).flatten).length = 2 * bytes.length := by
  induction bytes with
  | nil => rfl
  | cons b rest ih =>
      simp only [List.map_cons, List.flatten_cons, List.length_append, List.length_cons]
      rw [byteHexPadded_length b (hb b (List.mem_cons_self b rest)),
        ih (fun x hx => hb x (List.mem_cons_of_mem b hx))]
      ring

/-- C2 counterexample: with random bytes `[0, 0]`,
`generateRandomString(2)` returns `"_0"`: the byte 0 renders as
`"0".padStart(2, '_') = "_0"`, so the underscore — not a character of the
hexadecimal alphabet — appears in the output, refuting the claim that
every character is drawn from `0-9a-f`. -/
theorem generateRandomString_not_hex_only :
    '_' ∈ generateRandomString 2 [0, 0] ∧ '_' ∉ hexAlphabet := by decide

/-- C2 amended: for every length `L` and every content of the random byte
array, `generateRandomString(L)` returns exactly `L` characters, each
drawn from the hexadecimal alphabet `0-9a-f` extended with the underscore
(bytes below 16 are left-padded with `'_'` rather than `'0'`). -/
theorem generateRandomString_spec (length : Nat) (bytes : List Nat)
    (hlen : bytes.length = length) (hb : ∀ b ∈ bytes, b < 256) :
    (generateRandomString length bytes).length = length ∧
    ∀ c ∈ generateRandomString length bytes, c ∈ '_' :: hexAlphabet := by
  constructor
  · rw [generateRandomString, List.length_take, byteHexPadded_flatten_length bytes hb, hlen]
    omega
  · intro c hc
    have hc2 : c ∈ (bytes.map byteHexPadded).flatten := List.take_subset _ _ hc
    rcases List.mem_flatten.mp hc2 with ⟨l, hl, hcl⟩
    rcases List.mem_map.mp hl with ⟨b, hbmem, rfl⟩
    exact byteHexPadded_mem b (hb b hbmem) c hcl

/-- Witness for the amended C2 at length 3 over bytes `[0, 171, 16]`. -/
theorem generateRandomString_spec_witness :
    ([0, 171, 16] : List Nat).length = 3 ∧ (∀ b ∈ ([0, 171, 16] : List Nat), b < 256) ∧
    ((generateRandomString 3 [0, 171, 16]).length = 3 ∧
      ∀ c ∈ generateRandomString 3 [0, 171, 16], c ∈ '_' :: hexAlphabet) :=
  ⟨by decide, by decide, generateRandomString_spec 3 [0, 171, 16] (by decide) (by decide)⟩

/-! ## C7: the code challenge is base64url of the digest -/

set_option maxRecDepth 4096 in
/-- On in-range indices, pushing a base64 character through the two
replacement passes of the source yields the base64url character. -/
theorem comp_b64Char_lt : ∀ n < 64,
    (if (if b64Char n = '+' then '-' else b64Char n) = '/' then '_'
      else if b64Char n = '+' then '-' else b64Char n) = b64urlChar n := by decide

/-- Out of range, `getD` falls back to the default character. -/
theorem b64Char_default (n : Nat) (h : 64 ≤ n) : b64Char n = '?' := by
  rw [b64Char]
  exact List.getD_eq_default _ _ (le_trans (by decide) h)

/-- Out of range, `getD` falls back to the default character. -/
theorem b64urlChar_default (n : Nat) (h : 64 ≤ n) : b64urlChar n = '?' := by
  rw [b64urlChar]
  exact List.getD_eq_default _ _ (le_trans (by decide) h)

/-- On every index, pushing a base64 character through the two replacement
passes of the source yields the base64url character. -/
theorem comp_b64Char (n : Nat) :
    (if (if b64Char n = '+' then '-' else b64Char n) = '/' then '_'
      else if b64Char n = '+' then '-' else b64Char n) = b64urlChar n := by
  by_cases h : n < 64
  · exact comp_b64Char_lt n h
  · rw [b64Char_default n (le_of_not_lt h), b64urlChar_default n (le_of_not_lt h)]
    decide

set_option maxRecDepth 4096 in
/-- On in-range indices, base64url characters are never `=`, `+` or `/`. -/
theorem b64urlChar_ne_lt : ∀ n < 64,
    b64urlChar n ≠ '=' ∧ b64urlChar n ≠ '+' ∧ b64urlChar n ≠ '/' := by decide

/-- Base64url characters are never `=`, `+` or `/`. -/
theorem b64urlChar_ne (n : Nat) :
    b64urlChar n ≠ '=' ∧ b64urlChar n ≠ '+' ∧ b64urlChar n ≠ '/' := by
  by_cases h : n < 64
  · exact b64urlChar_ne_lt n h
  · rw [b64urlChar_default n (le_of_not_lt h)]
    exact ⟨by decide, by decide, by decide⟩

/-- The two chained single-character replacement passes fuse into one map
over the composed per-character function. -/
theorem replace_replace (l : List Char) :
    replaceChar '/' '_' (replaceChar '+' '-' l) =
      l.map (fun c =>
        if (if c = '+' then '-' else c) = '/' then '_'
        else if c = '+' then '-' else c) := by
  simp only [replaceChar, List.map_map]
  rfl

/-- Characters other than the removed one pass through `removeChar`. -/
theorem removeChar_cons_keep (a c : Char) (l : List Char) (h : c ≠ a) :
    removeChar a (c :: l) = c :: removeChar a l := by
  simp [removeChar, List.filter_cons, h]

/-- The removed character is dropped by `removeChar`. -/
theorem removeChar_cons_drop (a : Char) (l : List Char) :
    removeChar a (a :: l) = removeChar a l := by
  simp [removeChar, List.filter_cons]

/-- The padding character is untouched by the two replacement passes. -/
theorem comp_pad :
    (if (if '=' = '+' then '-' else '=') = '/' then '_'
      else if '=' = '+' then '-' else '=') = '=' := by decide

/-- The code's `btoa` plus the three `replace` passes computes exactly the
independently defined base64url encoding, for every byte list. -/
theorem generateCodeChallenge_eq : ∀ digest : List Nat,
    generateCodeChallenge digest = base64urlEncode digest
  | [] => rfl
  | [b1] => by
      rw [generateCodeChallenge, show btoaBytes [b1] = [b64Char (b1 / 4),
          b64Char (b1 % 4 * 16), '=', '='] from rfl, replace_replace]
      simp only [List.map_cons, List.map_nil, comp_b64Char, comp_pad]
      rw [removeChar_cons_keep _ _ _ (b64urlChar_ne _).1,
        removeChar_cons_keep _ _ _ (b64urlChar_ne _).1,
        removeChar_cons_drop, removeChar_cons_drop]
      rfl
  | [b1, b2] => by
      rw [generateCodeChallenge, show btoaBytes [b1, b2] = [b64Char (b1 / 4),
          b64Char (b1 % 4 * 16 + b2 / 16), b64Char (b2 % 16 * 4), '='] from rfl,
        replace_replace]
      simp only [List.map_cons, List.map_nil, comp_b64Char, comp_pad]
      rw [removeChar_cons_keep _ _ _ (b64urlChar_ne _).1,
        removeChar_cons_keep _ _ _ (b64urlChar_ne _).1,
        removeChar_cons_keep _ _ _ (b64urlChar_ne _).1, removeChar_cons_drop]
      rfl
  | b1 :: b2 :: b3 :: rest => by
      have ih := generateCodeChallenge_eq rest
      rw [generateCodeChallenge, replace_replace] at ih
      rw [generateCodeChallenge, show btoaBytes (b1 :: b2 :: b3 :: rest) =
          b64Char (b1 / 4) :: b64Char (b1 % 4 * 16 + b2 / 16) ::
          b64Char (b2 % 16 * 4 + b3 / 64) :: b64Char (b3 % 64) :: btoaBytes rest from rfl,
        replace_replace]
      simp only [List.map_cons, comp_b64Char]
      rw [removeChar_cons_keep _ _ _ (b64urlChar_ne _).1,
        removeChar_cons_keep _ _ _ (b64urlChar_ne _).1,
        removeChar_cons_keep _ _ _ (b64urlChar_ne _).1,
        removeChar_cons_keep _ _ _ (b64urlChar_ne _).1, ih]
      rfl

/-- No output of `replaceChar a b` equals `a`, provided `b` differs. -/
theorem replaceChar_out_ne (a b : Char) (hab : b ≠ a) (l : List Char) (c : Char)
    (hc : c ∈ replaceChar a b l) : c ≠ a := by
  rcases List.mem_map.mp hc with ⟨x, _, rfl⟩
  by_cases h : x = a <;> simp [h, hab]

/-- `replaceChar a b` preserves absence of a third character `d`. -/
theorem replaceChar_preserve_ne (a b d : Char) (hbd : b ≠ d) (l : List Char)
    (hl : ∀ x ∈ l, x ≠ d) (c : Char) (hc : c ∈ replaceChar a b l) : c ≠ d := by
  rcases List.mem_map.mp hc with ⟨x, hx, rfl⟩
  by_cases h : x = a
  · simp [h, hbd]
  · simp [h]
    exact hl x hx

/-- No character of the produced challenge is `+`, `/` or `=`. -/
theorem generateCodeChallenge_no_bad (digest : List Nat) :
    ∀ c ∈ generateCodeChallenge digest, c ≠ '+' ∧ c ≠ '/' ∧ c ≠ '=' := by
  intro c hc
  rw [generateCodeChallenge, removeChar] at hc
  have h := List.mem_filter.mp hc
  refine ⟨?_, ?_, bne_iff_ne.mp h.2⟩
  · exact replaceChar_preserve_ne '/' '_' '+' (by decide) _
      (fun x hx => replaceChar_out_ne '+' '-' (by decide) _ x hx) c h.1
  · exact replaceChar_out_ne '/' '_' (by decide) _ c h.1

/-- C7: for every digest byte sequence (externally, the SHA-256 of the
verifier's UTF-8 bytes as required of the platform primitive),
`generateCodeChallenge` equals the base64url encoding — standard base64
over the URL-safe alphabet with no padding emitted — and its output
contains no `+`, `/` or `=` character; being a pure function of the
digest, it is deterministic. -/
theorem generateCodeChallenge_spec (digest : List Nat) :
    generateCodeChallenge digest = base64urlEncode digest ∧
    ∀ c ∈ generateCodeChallenge digest, c ≠ '+' ∧ c ≠ '/' ∧ c ≠ '=' :=
  ⟨generateCodeChallenge_eq digest, generateCodeChallenge_no_bad digest⟩

/-- Witness for C7 at the concrete digest `[0, 1, 250]`, whose challenge
is `"AAH6"`; the membership hypothesis of the second conjunct is
discharged at the character `A`. -/
theorem generateCodeChallenge_spec_witness :
    generateCodeChallenge [0, 1, 250] = base64urlEncode [0, 1, 250] ∧
    'A' ∈ generateCodeChallenge [0, 1, 250] ∧ 'A' ≠ '+' :=
  ⟨(generateCodeChallenge_spec [0, 1, 250]).1, by decide,
    ((generateCodeChallenge_spec [0, 1, 250]).2 'A' (by decide)).1⟩

/-! ## C9: best-effort token info -/

/-- C9 counterexample: the held token `"abc"` has no dot, so
`split('.')[1]` is `undefined`, the `if (payload)` body is skipped and the
trailing `return null` runs: `getTokenInfo()` returns `null` rather than
the degraded `{token: "abc...", type: 'Bearer'}` descriptor the claim
requires for a token that is not decodable as three dot-segments. -/
theorem getTokenInfo_dotless_counterexample :
    getTokenInfo (fun _ => Except.error ()) (fun _ => "")
        ⟨some "abc", none, none, none, none, none, none⟩ = Except.ok none ∧
    (Except.ok (none : Option TokenInfo) : Except Unit (Option TokenInfo)) ≠
      Except.ok (some (TokenInfo.basic ("abc" ++ "...") "Bearer")) :=
  ⟨rfl, by simp⟩

/-- C9 amended: for every decoder behaviour and every state,
`getTokenInfo()` (1) never propagates an error to the caller, (2) returns
`null` when no (truthy) access token is held, (3) also returns `null` —
not a degraded descriptor — when the held token has no second dot-segment
or an empty one, and (4) returns the degraded descriptor holding only a
20-character prefix of the raw token when a nonempty second segment exists
but decoding it fails. -/
theorem getTokenInfo_spec (decodePayload : List Char → Except Unit Claims)
    (dateIso : Int → String) (w : World) :
    (∀ err : Unit, getTokenInfo decodePayload dateIso w ≠ Except.error err) ∧
    (truthy w.accessToken = false →
      getTokenInfo decodePayload dateIso w = Except.ok none) ∧
    (∀ tok, w.accessToken = some tok → truthy (some tok) = true →
      ((splitOnDot tok.data)[1]? = none ∨ (splitOnDot tok.data)[1]? = some []) →
      getTokenInfo decodePayload dateIso w = Except.ok none) ∧
    (∀ tok payload, w.accessToken = some tok → truthy (some tok) = true →
      (splitOnDot tok.data)[1]? = some payload → payload ≠ [] →
      decodePayload (replaceChar '_' '/' (replaceChar '-' '+' payload)) = Except.error () →
      getTokenInfo decodePayload dateIso w =
        Except.ok (some (TokenInfo.basic (String.mk (tok.data.take 20) ++ "...") "Bearer"))) := by
  refine ⟨?_, ?_, ?_, ?_⟩
  · intro err
    unfold getTokenInfo
    split
    · simp
    · dsimp only
      split
      · simp
      · split
        · simp
        · split <;> simp
  · intro hfalse
    simp [getTokenInfo, hfalse]
  · intro tok htok htr hseg
    rcases hseg with hseg | hseg <;>
      simp [getTokenInfo, htok, htr, hseg]
  · intro tok payload htok htr hseg hne hdec
    simp [getTokenInfo, htok, htr, hseg, hne, hdec]

/-- Witness for the amended C9 at the undecodable token `"a.b.c"` with an
always-failing decoder. -/
theorem getTokenInfo_spec_witness :
    (splitOnDot ("a.b.c").data)[1]? = some ("b").data ∧ ("b").data ≠ [] ∧
    getTokenInfo (fun _ => Except.error ()) (fun _ => "")
        ⟨some "a.b.c", none, none, none, none, none, none⟩ =
      Except.ok (some (TokenInfo.basic
        (String.mk (("a.b.c").data.take 20) ++ "...") "Bearer")) :=
  ⟨by decide, by decide,
    (getTokenInfo_spec (fun _ => Except.error ()) (fun _ => "") _).2.2.2 "a.b.c" ("b").data
      rfl (by decide) (by decide) (by decide) rfl⟩
